import Mathlib

/-!
Verification of the dynamic-node-parameters controller
(packages/cli/src/controllers/dynamicNodeParameters.controller.ts).

The controller is a request-validation and dispatch layer over three HTTP
endpoints: options, resource-locator-results and resource-mapper-fields.
External collaborators (the JSON parsing primitive `jsonParse`, the execution
context builder `getBase`, and the four resolution methods of
`DynamicNodeParametersService`) are modelled as an environment record of
possibly-failing functions; the controller code itself is embedded as
executable Lean functions over that environment.  Each endpoint additionally
returns a chronological trace of the collaborator calls it made, so that
claims about which collaborators run, in which order, and with which
arguments can be stated and proved.
-/

set_option autoImplicit false

namespace DynamicNodeParameters

/-- JSON values, as produced by the external `jsonParse` primitive.  The
controller never inspects their internals; they are carried opaquely. -/
inductive Json where
  | null
  | bool (b : Bool)
  | num (n : Int)
  | str (s : String)
  | arr (elems : List Json)
  | obj (fields : List (String × Json))

/-- Opaque execution context object (`IWorkflowExecuteAdditionalData`),
produced by the external `getBase` collaborator and never interpreted by the
controller. -/
structure AdditionalData where
  tag : Nat
deriving DecidableEq

/-- Error taxonomy of a request.  `badRequest` is the `BadRequestError` the
controller itself throws for a missing required query field; `parseError` is
the failure of the external `jsonParse` primitive on malformed JSON text;
`contextError` is a failure of the execution-context builder; `serviceError`
lets the resolution collaborator raise a failure of any classification it
chooses. -/
inductive ApiError where
  | badRequest (message : String)
  | parseError (detail : String)
  | contextError (detail : String)
  | serviceError (statusClass : Nat) (message : String)
deriving DecidableEq

/-- Modelled from the spec: the HTTP status class each error category is
surfaced with (the mapping lives in the response helper, outside this
source file).  Missing-parameter and malformed-JSON failures are 400-class
client faults; context-build failures are 500-class server faults; a failure
from the resolution collaborator keeps whatever class the collaborator
assigned. -/
def ApiError.httpStatusClass : ApiError → Nat
  | .badRequest _ => 400
  | .parseError _ => 400
  | .contextError _ => 500
  | .serviceError c _ => c

/-- Raw query strings of a request, one field per query parameter the three
endpoints read.  `none` models a parameter absent from the query string;
`some s` models a supplied value `s` (possibly empty). -/
structure Query where
  path : Option String := none
  nodeTypeAndVersion : Option String := none
  currentNodeParameters : Option String := none
  methodName : Option String := none
  credentials : Option String := none
  loadOptions : Option String := none
  filter : Option String := none
  paginationToken : Option String := none
deriving DecidableEq

/-- The string value a JavaScript truthiness test sees: an absent parameter
(`undefined`) and an empty string are both falsy, so both collapse to `""`;
any other supplied value is itself. -/
def strVal : Option String → String
  | none => ""
  | some s => s

/-- Decoded parameters the `parseQueryParams` middleware stores on
`req.params` for the handlers to consume. -/
structure ReqParams where
  nodeTypeAndVersion : Json
  currentNodeParameters : Json
  credentials : Option Json

/-- One collaborator call, recorded with the exact arguments it was given.
`buildContext` is the execution-context builder (`getBase`); the other four
are the resolution calls of `DynamicNodeParametersService`. -/
inductive CallEvent where
  | buildContext (userId : String) (currentNodeParameters : Json)
  | optionsViaMethodName (methodName : String) (path : Option String)
      (additionalData : AdditionalData) (nodeTypeAndVersion : Json)
      (currentNodeParameters : Json) (credentials : Option Json)
  | optionsViaLoadOptions (loadOptions : Json)
      (additionalData : AdditionalData) (nodeTypeAndVersion : Json)
      (currentNodeParameters : Json) (credentials : Option Json)
  | locatorResults (methodName : String) (path : Option String)
      (additionalData : AdditionalData) (nodeTypeAndVersion : Json)
      (currentNodeParameters : Json) (credentials : Option Json)
      (filter : Option String) (paginationToken : Option String)
  | mapperFields (methodName : String) (path : Option String)
      (additionalData : AdditionalData) (nodeTypeAndVersion : Json)
      (currentNodeParameters : Json) (credentials : Option Json)

/-- An event is a resolution-collaborator call (anything but the
execution-context builder). -/
def CallEvent.isResolution : CallEvent → Bool
  | .buildContext .. => false
  | _ => true

/-- An event is a call to the resolve-by-method-name collaborator of the
options endpoint. -/
def CallEvent.isViaMethodName : CallEvent → Bool
  | .optionsViaMethodName .. => true
  | _ => false

/-- An event is a call to the resolve-via-load-options-descriptor
collaborator of the options endpoint. -/
def CallEvent.isViaLoadOptions : CallEvent → Bool
  | .optionsViaLoadOptions .. => true
  | _ => false

/-- The credentials argument a resolution call received (`none` for the
context-builder event, which takes no credentials). -/
def CallEvent.credArg : CallEvent → Option (Option Json)
  | .buildContext .. => none
  | .optionsViaMethodName _ _ _ _ _ c => some c
  | .optionsViaLoadOptions _ _ _ _ c => some c
  | .locatorResults _ _ _ _ _ c _ _ => some c
  | .mapperFields _ _ _ _ _ c => some c

/-- Check that a resource-locator resolution event carries exactly the
filter and paginationToken values of the query, forwarded verbatim
(other events pass trivially). -/
def CallEvent.filterPaginationOk (q : Query) : CallEvent → Bool
  | .locatorResults _ _ _ _ _ _ f pt =>
      decide (f = q.filter) && decide (pt = q.paginationToken)
  | _ => true

/-- The four resolution methods of `DynamicNodeParametersService`, external
collaborators of the controller.  Each may fail with an arbitrary error of
its own classification. -/
structure DynamicNodeParametersService where
  getOptionsViaMethodName : String → Option String → AdditionalData → Json →
    Json → Option Json → Except ApiError (List Json)
  getOptionsViaLoadOptions : Json → AdditionalData → Json → Json →
    Option Json → Except ApiError (List Json)
  getResourceLocatorResults : String → Option String → AdditionalData →
    Json → Json → Option Json → Option String → Option String →
    Except ApiError (Option Json)
  getResourceMappingFields : String → Option String → AdditionalData →
    Json → Json → Option Json → Except ApiError (Option Json)

/-- The external collaborators the controller depends on: the JSON parsing
primitive (failing with a parse detail on malformed text), the execution
context builder `getBase` (failing with a context detail), and the
resolution service. -/
structure Env where
  jsonParse : String → Except String Json
  getBase : String → Json → Except String AdditionalData
  service : DynamicNodeParametersService

/-- Character-list prefix test, structurally recursive so that it evaluates
by kernel reduction. -/
def charsPrefixOf : List Char → List Char → Bool
  | [], _ => true
  | _ :: _, [] => false
  | c :: cs, d :: ds => c == d && charsPrefixOf cs ds

/-- Character-list substring test: the first list occurs contiguously inside
the second. -/
def charsContain (field : List Char) : List Char → Bool
  | [] => charsPrefixOf field []
  | d :: ds => charsPrefixOf field (d :: ds) || charsContain field ds

/-- Message substring check: `mentions msg field` holds when `field` occurs
verbatim inside `msg`. -/
def mentions (msg field : String) : Bool := charsContain field.data msg.data

/-- Route-level middleware of the resource-locator-results and
resource-mapper-fields endpoints: reject the request with a
`BadRequestError` when `methodName` is falsy (absent or empty). -/
def assertMethodName (q : Query) : Except ApiError Unit :=
  if strVal q.methodName = "" then
    .error (.badRequest "Parameter methodName is required.")
  else
    .ok ()

/-- Controller-level middleware `parseQueryParams`: reject the request when
`nodeTypeAndVersion` or `currentNodeParameters` is falsy, then JSON-decode
`nodeTypeAndVersion`, `currentNodeParameters` and, when truthy, the optional
`credentials`, in that order; the first `jsonParse` failure aborts the
request with that parse error. -/
def parseQueryParams (env : Env) (q : Query) : Except ApiError ReqParams :=
  if strVal q.nodeTypeAndVersion = "" then
    .error (.badRequest "Parameter nodeTypeAndVersion is required.")
  else if strVal q.currentNodeParameters = "" then
    .error (.badRequest "Parameter currentNodeParameters is required.")
  else
    match env.jsonParse (strVal q.nodeTypeAndVersion) with
    | .error e => .error (.parseError e)
    | .ok ntv =>
      match env.jsonParse (strVal q.currentNodeParameters) with
      | .error e => .error (.parseError e)
      | .ok cnp =>
        if strVal q.credentials = "" then
          .ok ⟨ntv, cnp, none⟩
        else
          match env.jsonParse (strVal q.credentials) with
          | .error e => .error (.parseError e)
          | .ok c => .ok ⟨ntv, cnp, some c⟩

/-- Handler of GET /dynamic-node-parameters/options: build the execution
context, then resolve via method name when `methodName` is truthy, else via
the lazily JSON-decoded `loadOptions` descriptor when that is truthy, else
succeed with the empty list.  Returns the result together with the trace of
collaborator calls. -/
def getOptions (env : Env) (userId : String) (q : Query) (p : ReqParams) :
    Except ApiError (List Json) × List CallEvent :=
  let tr0 := [CallEvent.buildContext userId p.currentNodeParameters]
  match env.getBase userId p.currentNodeParameters with
  | .error e => (.error (.contextError e), tr0)
  | .ok additionalData =>
    if strVal q.methodName = "" then
      if strVal q.loadOptions = "" then
        (.ok [], tr0)
      else
        match env.jsonParse (strVal q.loadOptions) with
        | .error e => (.error (.parseError e), tr0)
        | .ok descriptor =>
          (env.service.getOptionsViaLoadOptions descriptor additionalData
             p.nodeTypeAndVersion p.currentNodeParameters p.credentials,
           tr0 ++ [CallEvent.optionsViaLoadOptions descriptor additionalData
             p.nodeTypeAndVersion p.currentNodeParameters p.credentials])
    else
      (env.service.getOptionsViaMethodName (strVal q.methodName) q.path
         additionalData p.nodeTypeAndVersion p.currentNodeParameters
         p.credentials,
       tr0 ++ [CallEvent.optionsViaMethodName (strVal q.methodName) q.path
         additionalData p.nodeTypeAndVersion p.currentNodeParameters
         p.credentials])

/-- Handler of GET /dynamic-node-parameters/resource-locator-results: build
the execution context, then make the single resolution call, forwarding
`filter` and `paginationToken` verbatim. -/
def getResourceLocatorResults (env : Env) (userId : String) (q : Query)
    (p : ReqParams) : Except ApiError (Option Json) × List CallEvent :=
  let tr0 := [CallEvent.buildContext userId p.currentNodeParameters]
  match env.getBase userId p.currentNodeParameters with
  | .error e => (.error (.contextError e), tr0)
  | .ok additionalData =>
    (env.service.getResourceLocatorResults (strVal q.methodName) q.path
       additionalData p.nodeTypeAndVersion p.currentNodeParameters
       p.credentials q.filter q.paginationToken,
     tr0 ++ [CallEvent.locatorResults (strVal q.methodName) q.path
       additionalData p.nodeTypeAndVersion p.currentNodeParameters
       p.credentials q.filter q.paginationToken])

/-- Handler of GET /dynamic-node-parameters/resource-mapper-fields: build
the execution context, then make the single resolution call. -/
def getResourceMappingFields (env : Env) (userId : String) (q : Query)
    (p : ReqParams) : Except ApiError (Option Json) × List CallEvent :=
  let tr0 := [CallEvent.buildContext userId p.currentNodeParameters]
  match env.getBase userId p.currentNodeParameters with
  | .error e => (.error (.contextError e), tr0)
  | .ok additionalData =>
    (env.service.getResourceMappingFields (strVal q.methodName) q.path
       additionalData p.nodeTypeAndVersion p.currentNodeParameters
       p.credentials,
     tr0 ++ [CallEvent.mapperFields (strVal q.methodName) q.path
       additionalData p.nodeTypeAndVersion p.currentNodeParameters
       p.credentials])

/-- Modelled from the spec: the middleware pipeline of the options endpoint
(the decorator-driven routing that chains middlewares before the handler is
not part of this source file).  The controller-level `parseQueryParams`
middleware runs first; on failure the request terminates with that error and
no collaborator call is made. -/
def optionsEndpoint (env : Env) (userId : String) (q : Query) :
    Except ApiError (List Json) × List CallEvent :=
  match parseQueryParams env q with
  | .error e => (.error e, [])
  | .ok p => getOptions env userId q p

/-- Modelled from the spec: the middleware pipeline of the
resource-locator-results endpoint.  The route-level `assertMethodName` gate
runs before the controller-level `parseQueryParams` middleware, which runs
before the handler; the first failure terminates the request with no
collaborator call made. -/
def resourceLocatorResultsEndpoint (env : Env) (userId : String)
    (q : Query) : Except ApiError (Option Json) × List CallEvent :=
  match assertMethodName q with
  | .error e => (.error e, [])
  | .ok _ =>
    match parseQueryParams env q with
    | .error e => (.error e, [])
    | .ok p => getResourceLocatorResults env userId q p

/-- Modelled from the spec: the middleware pipeline of the
resource-mapper-fields endpoint, identical in shape to the
resource-locator-results pipeline. -/
def resourceMapperFieldsEndpoint (env : Env) (userId : String)
    (q : Query) : Except ApiError (Option Json) × List CallEvent :=
  match assertMethodName q with
  | .error e => (.error e, [])
  | .ok _ =>
    match parseQueryParams env q with
    | .error e => (.error e, [])
    | .ok p => getResourceMappingFields env userId q p

/-- Stub collaborator environment used to instantiate theorems at concrete
inputs: `jsonParse` fails exactly on the text `not-json`, the context
builder succeeds, and every resolution call succeeds. -/
def stubEnv : Env :=
  { jsonParse := fun s =>
      if s = "not-json" then .error "malformed" else .ok (.str s),
    getBase := fun _ _ => .ok ⟨7⟩,
    service :=
      { getOptionsViaMethodName := fun m _ _ _ _ _ => .ok [Json.str m],
        getOptionsViaLoadOptions := fun _ _ _ _ _ => .ok [],
        getResourceLocatorResults := fun _ _ _ _ _ _ _ _ => .ok none,
        getResourceMappingFields := fun _ _ _ _ _ _ => .ok none } }

/-- Stub environment whose execution-context builder always fails. -/
def failCtxEnv : Env := { stubEnv with getBase := fun _ _ => .error "no context" }

/-- Query with every parameter absent. -/
def emptyQuery : Query := {}

/-- Query with every parameter supplied with a truthy value. -/
def fullQuery : Query :=
  { path := some "parameters.url",
    nodeTypeAndVersion := some "ntv-text",
    currentNodeParameters := some "cnp-text",
    methodName := some "getUrls",
    credentials := some "cred-text",
    loadOptions := some "lo-text",
    filter := some "fil",
    paginationToken := some "tok" }

/-- Query with the mandatory structured fields supplied and every optional
field absent. -/
def mandatoryOnlyQuery : Query :=
  { nodeTypeAndVersion := some "ntv-text",
    currentNodeParameters := some "cnp-text" }

/-- Full query whose nodeTypeAndVersion text is the one string the stub
parser rejects. -/
def badNtvQuery : Query := { fullQuery with nodeTypeAndVersion := some "not-json" }

/-- JSON parser that fails exactly on the loadOptions text of `fullQuery`
and otherwise behaves like the stub parser. -/
def probeParse : String → Except String Json :=
  fun s => if s = "lo-text" then .error "boom" else stubEnv.jsonParse s

/-- Stub environment whose parser rejects exactly the loadOptions text of
`fullQuery`. -/
def lazyProbeEnv : Env := { stubEnv with jsonParse := probeParse }

/-- Full query with methodName supplied as the empty string. -/
def emptyMethodQuery : Query := { fullQuery with methodName := some "" }

/-- Full query with methodName absent. -/
def noMethodQuery : Query := { fullQuery with methodName := none }

/-- Decoded parameters that `stubEnv` produces on `fullQuery`. -/
def fullParams : ReqParams :=
  ⟨.str "ntv-text", .str "cnp-text", some (.str "cred-text")⟩

/-- Stub environment whose resource-locator resolution call fails with a
502-class upstream error. -/
def failServiceEnv : Env :=
  { stubEnv with service :=
    { stubEnv.service with getResourceLocatorResults :=
        fun _ _ _ _ _ _ _ _ => .error (.serviceError 502 "upstream unreachable") } }

section UnfoldingLemmas

variable (env : Env) (userId : String) (q : Query) (p : ReqParams)

/-- Unfolding lemma: a falsy nodeTypeAndVersion fails validation with the
BadRequestError naming that field. -/
theorem parseQueryParams_noNtv (h : strVal q.nodeTypeAndVersion = "") :
    parseQueryParams env q =
      .error (.badRequest "Parameter nodeTypeAndVersion is required.") := by
  simp [parseQueryParams, h]

/-- Unfolding lemma: with a truthy nodeTypeAndVersion, a falsy
currentNodeParameters fails validation with the BadRequestError naming that
field. -/
theorem parseQueryParams_noCnp (hn : ¬ strVal q.nodeTypeAndVersion = "")
    (h : strVal q.currentNodeParameters = "") :
    parseQueryParams env q =
      .error (.badRequest "Parameter currentNodeParameters is required.") := by
  simp [parseQueryParams, hn, h]

/-- Unfolding lemma: malformed nodeTypeAndVersion text fails validation
with that parse error. -/
theorem parseQueryParams_ntvParseError
    (hn : ¬ strVal q.nodeTypeAndVersion = "")
    (hc : ¬ strVal q.currentNodeParameters = "") (e : String)
    (he : env.jsonParse (strVal q.nodeTypeAndVersion) = .error e) :
    parseQueryParams env q = .error (.parseError e) := by
  simp [parseQueryParams, hn, hc, he]

/-- Unfolding lemma: with nodeTypeAndVersion decoding, malformed
currentNodeParameters text fails validation with that parse error. -/
theorem parseQueryParams_cnpParseError
    (hn : ¬ strVal q.nodeTypeAndVersion = "")
    (hc : ¬ strVal q.currentNodeParameters = "") (v : Json) (e : String)
    (hv : env.jsonParse (strVal q.nodeTypeAndVersion) = .ok v)
    (he : env.jsonParse (strVal q.currentNodeParameters) = .error e) :
    parseQueryParams env q = .error (.parseError e) := by
  simp [parseQueryParams, hn, hc, hv, he]

/-- Unfolding lemma: with both mandatory fields decoding, malformed truthy
credentials text fails validation with that parse error. -/
theorem parseQueryParams_credParseError
    (hn : ¬ strVal q.nodeTypeAndVersion = "")
    (hc : ¬ strVal q.currentNodeParameters = "") (v w : Json) (e : String)
    (hv : env.jsonParse (strVal q.nodeTypeAndVersion) = .ok v)
    (hw : env.jsonParse (strVal q.currentNodeParameters) = .ok w)
    (hcr : ¬ strVal q.credentials = "")
    (he : env.jsonParse (strVal q.credentials) = .error e) :
    parseQueryParams env q = .error (.parseError e) := by
  simp [parseQueryParams, hn, hc, hv, hw, hcr, he]

/-- Unfolding lemma: successful validation with falsy credentials stores
the two decoded mandatory fields and an explicit missing credentials
value. -/
theorem parseQueryParams_ok_noCred
    (hn : ¬ strVal q.nodeTypeAndVersion = "")
    (hc : ¬ strVal q.currentNodeParameters = "") (v w : Json)
    (hv : env.jsonParse (strVal q.nodeTypeAndVersion) = .ok v)
    (hw : env.jsonParse (strVal q.currentNodeParameters) = .ok w)
    (hcr : strVal q.credentials = "") :
    parseQueryParams env q = .ok ⟨v, w, none⟩ := by
  simp [parseQueryParams, hn, hc, hv, hw, hcr]

/-- Unfolding lemma: successful validation with truthy credentials stores
the decoded credentials value unchanged. -/
theorem parseQueryParams_ok_cred
    (hn : ¬ strVal q.nodeTypeAndVersion = "")
    (hc : ¬ strVal q.currentNodeParameters = "") (v w c : Json)
    (hv : env.jsonParse (strVal q.nodeTypeAndVersion) = .ok v)
    (hw : env.jsonParse (strVal q.currentNodeParameters) = .ok w)
    (hcr : ¬ strVal q.credentials = "")
    (he : env.jsonParse (strVal q.credentials) = .ok c) :
    parseQueryParams env q = .ok ⟨v, w, some c⟩ := by
  simp [parseQueryParams, hn, hc, hv, hw, hcr, he]

/-- Unfolding lemma: a validation failure terminates the options endpoint
with that error and an empty trace. -/
theorem optionsEndpoint_error (e : ApiError)
    (h : parseQueryParams env q = .error e) :
    optionsEndpoint env userId q = (.error e, []) := by
  simp [optionsEndpoint, h]

/-- Unfolding lemma: successful validation hands the options request to the
handler. -/
theorem optionsEndpoint_ok (h : parseQueryParams env q = .ok p) :
    optionsEndpoint env userId q = getOptions env userId q p := by
  simp [optionsEndpoint, h]

/-- Unfolding lemma: a falsy methodName terminates the
resource-locator-results endpoint at the route gate. -/
theorem locatorEndpoint_noMethod (h : strVal q.methodName = "") :
    resourceLocatorResultsEndpoint env userId q =
      (.error (.badRequest "Parameter methodName is required."), []) := by
  simp [resourceLocatorResultsEndpoint, assertMethodName, h]

/-- Unfolding lemma: with a truthy methodName, a validation failure
terminates the resource-locator-results endpoint with that error. -/
theorem locatorEndpoint_error (hm : ¬ strVal q.methodName = "")
    (e : ApiError) (h : parseQueryParams env q = .error e) :
    resourceLocatorResultsEndpoint env userId q = (.error e, []) := by
  simp [resourceLocatorResultsEndpoint, assertMethodName, hm, h]

/-- Unfolding lemma: with a truthy methodName, successful validation hands
the resource-locator-results request to the handler. -/
theorem locatorEndpoint_ok (hm : ¬ strVal q.methodName = "")
    (h : parseQueryParams env q = .ok p) :
    resourceLocatorResultsEndpoint env userId q =
      getResourceLocatorResults env userId q p := by
  simp [resourceLocatorResultsEndpoint, assertMethodName, hm, h]

/-- Unfolding lemma: a falsy methodName terminates the
resource-mapper-fields endpoint at the route gate. -/
theorem mapperEndpoint_noMethod (h : strVal q.methodName = "") :
    resourceMapperFieldsEndpoint env userId q =
      (.error (.badRequest "Parameter methodName is required."), []) := by
  simp [resourceMapperFieldsEndpoint, assertMethodName, h]

/-- Unfolding lemma: with a truthy methodName, a validation failure
terminates the resource-mapper-fields endpoint with that error. -/
theorem mapperEndpoint_error (hm : ¬ strVal q.methodName = "")
    (e : ApiError) (h : parseQueryParams env q = .error e) :
    resourceMapperFieldsEndpoint env userId q = (.error e, []) := by
  simp [resourceMapperFieldsEndpoint, assertMethodName, hm, h]

/-- Unfolding lemma: with a truthy methodName, successful validation hands
the resource-mapper-fields request to the handler. -/
theorem mapperEndpoint_ok (hm : ¬ strVal q.methodName = "")
    (h : parseQueryParams env q = .ok p) :
    resourceMapperFieldsEndpoint env userId q =
      getResourceMappingFields env userId q p := by
  simp [resourceMapperFieldsEndpoint, assertMethodName, hm, h]

/-- Unfolding lemma: a context-builder failure terminates the options
handler after the single buildContext call. -/
theorem getOptions_ctxError (e : String)
    (h : env.getBase userId p.currentNodeParameters = .error e) :
    getOptions env userId q p =
      (.error (.contextError e),
       [.buildContext userId p.currentNodeParameters]) := by
  simp [getOptions, h]

/-- Unfolding lemma: with a truthy methodName the options handler makes
exactly the resolve-by-method-name call. -/
theorem getOptions_viaMethod (ctx : AdditionalData)
    (h : env.getBase userId p.currentNodeParameters = .ok ctx)
    (hm : ¬ strVal q.methodName = "") :
    getOptions env userId q p =
      (env.service.getOptionsViaMethodName (strVal q.methodName) q.path ctx
         p.nodeTypeAndVersion p.currentNodeParameters p.credentials,
       [.buildContext userId p.currentNodeParameters,
        .optionsViaMethodName (strVal q.methodName) q.path ctx
          p.nodeTypeAndVersion p.currentNodeParameters p.credentials]) := by
  simp [getOptions, h, hm]

/-- Unfolding lemma: with a falsy methodName and truthy loadOptions whose
text fails to decode, the options handler fails with that parse error. -/
theorem getOptions_loadParseError (ctx : AdditionalData) (e : String)
    (h : env.getBase userId p.currentNodeParameters = .ok ctx)
    (hm : strVal q.methodName = "") (hl : ¬ strVal q.loadOptions = "")
    (hd : env.jsonParse (strVal q.loadOptions) = .error e) :
    getOptions env userId q p =
      (.error (.parseError e),
       [.buildContext userId p.currentNodeParameters]) := by
  simp [getOptions, h, hm, hl, hd]

/-- Unfolding lemma: with a falsy methodName and a truthy loadOptions that
decodes, the options handler makes exactly the
resolve-via-load-options-descriptor call. -/
theorem getOptions_viaLoad (ctx : AdditionalData) (d : Json)
    (h : env.getBase userId p.currentNodeParameters = .ok ctx)
    (hm : strVal q.methodName = "") (hl : ¬ strVal q.loadOptions = "")
    (hd : env.jsonParse (strVal q.loadOptions) = .ok d) :
    getOptions env userId q p =
      (env.service.getOptionsViaLoadOptions d ctx p.nodeTypeAndVersion
         p.currentNodeParameters p.credentials,
       [.buildContext userId p.currentNodeParameters,
        .optionsViaLoadOptions d ctx p.nodeTypeAndVersion
          p.currentNodeParameters p.credentials]) := by
  simp [getOptions, h, hm, hl, hd]

/-- Unfolding lemma: with both selectors falsy the options handler returns
the empty list after the single buildContext call. -/
theorem getOptions_neither (ctx : AdditionalData)
    (h : env.getBase userId p.currentNodeParameters = .ok ctx)
    (hm : strVal q.methodName = "") (hl : strVal q.loadOptions = "") :
    getOptions env userId q p =
      (.ok [], [.buildContext userId p.currentNodeParameters]) := by
  simp [getOptions, h, hm, hl]

/-- Unfolding lemma: a context-builder failure terminates the
resource-locator-results handler after the single buildContext call. -/
theorem getResourceLocatorResults_ctxError (e : String)
    (h : env.getBase userId p.currentNodeParameters = .error e) :
    getResourceLocatorResults env userId q p =
      (.error (.contextError e),
       [.buildContext userId p.currentNodeParameters]) := by
  simp [getResourceLocatorResults, h]

/-- Unfolding lemma: with the context built, the resource-locator-results
handler makes exactly its one resolution call. -/
theorem getResourceLocatorResults_call (ctx : AdditionalData)
    (h : env.getBase userId p.currentNodeParameters = .ok ctx) :
    getResourceLocatorResults env userId q p =
      (env.service.getResourceLocatorResults (strVal q.methodName) q.path
         ctx p.nodeTypeAndVersion p.currentNodeParameters p.credentials
         q.filter q.paginationToken,
       [.buildContext userId p.currentNodeParameters,
        .locatorResults (strVal q.methodName) q.path ctx
          p.nodeTypeAndVersion p.currentNodeParameters p.credentials
          q.filter q.paginationToken]) := by
  simp [getResourceLocatorResults, h]

/-- Unfolding lemma: a context-builder failure terminates the
resource-mapper-fields handler after the single buildContext call. -/
theorem getResourceMappingFields_ctxError (e : String)
    (h : env.getBase userId p.currentNodeParameters = .error e) :
    getResourceMappingFields env userId q p =
      (.error (.contextError e),
       [.buildContext userId p.currentNodeParameters]) := by
  simp [getResourceMappingFields, h]

/-- Unfolding lemma: with the context built, the resource-mapper-fields
handler makes exactly its one resolution call. -/
theorem getResourceMappingFields_call (ctx : AdditionalData)
    (h : env.getBase userId p.currentNodeParameters = .ok ctx) :
    getResourceMappingFields env userId q p =
      (env.service.getResourceMappingFields (strVal q.methodName) q.path
         ctx p.nodeTypeAndVersion p.currentNodeParameters p.credentials,
       [.buildContext userId p.currentNodeParameters,
        .mapperFields (strVal q.methodName) q.path ctx
          p.nodeTypeAndVersion p.currentNodeParameters p.credentials]) := by
  simp [getResourceMappingFields, h]

end UnfoldingLemmas

/-- C1: on the options endpoint exactly one resolution mode is selected per
call: with a truthy methodName only the resolve-by-method-name collaborator
can be invoked (even when loadOptions is also supplied); otherwise with a
truthy loadOptions only the resolve-via-load-options-descriptor
collaborator can be invoked; and with neither, no resolution collaborator
is invoked and, when validation and context building succeed, the call
succeeds with the empty result list. -/
theorem options_mode_exclusive (env : Env) (userId : String) (q : Query) :
    (strVal q.methodName ≠ "" →
      (((optionsEndpoint env userId q).2.filter CallEvent.isResolution).all
        CallEvent.isViaMethodName) = true)
    ∧ (strVal q.methodName = "" → strVal q.loadOptions ≠ "" →
      (((optionsEndpoint env userId q).2.filter CallEvent.isResolution).all
        CallEvent.isViaLoadOptions) = true)
    ∧ (strVal q.methodName = "" → strVal q.loadOptions = "" →
      ((optionsEndpoint env userId q).2.filter CallEvent.isResolution) = []
      ∧ ∀ p ctx, parseQueryParams env q = .ok p →
          env.getBase userId p.currentNodeParameters = .ok ctx →
          (optionsEndpoint env userId q).1 = .ok []) := by
  cases hpq : parseQueryParams env q with
  | error e =>
    rw [optionsEndpoint_error env userId q e hpq]
    refine ⟨fun _ => rfl, fun _ _ => rfl, fun _ _ => ⟨rfl, ?_⟩⟩
    intro p ctx hp
    exact absurd hp (by simp)
  | ok p =>
    rw [optionsEndpoint_ok env userId q p hpq]
    cases hgb : env.getBase userId p.currentNodeParameters with
    | error e =>
      rw [getOptions_ctxError env userId q p e hgb]
      refine ⟨fun _ => rfl, fun _ _ => rfl, fun _ _ => ⟨rfl, ?_⟩⟩
      intro p2 ctx hp hb
      injection hp with hp2
      subst hp2
      rw [hgb] at hb
      exact absurd hb (by simp)
    | ok ctx =>
      by_cases hm : strVal q.methodName = ""
      · by_cases hl : strVal q.loadOptions = ""
        · rw [getOptions_neither env userId q p ctx hgb hm hl]
          exact ⟨fun h => absurd hm h, fun _ h => absurd hl h,
            fun _ _ => ⟨rfl, fun _ _ _ _ => rfl⟩⟩
        · refine ⟨fun h => absurd hm h, fun _ _ => ?_, fun _ h => absurd h hl⟩
          cases hlp : env.jsonParse (strVal q.loadOptions) with
          | error e =>
            rw [getOptions_loadParseError env userId q p ctx e hgb hm hl hlp]
            rfl
          | ok d =>
            rw [getOptions_viaLoad env userId q p ctx d hgb hm hl hlp]
            rfl
      · rw [getOptions_viaMethod env userId q p ctx hgb hm]
        exact ⟨fun _ => rfl, fun h => absurd h hm, fun h => absurd h hm⟩

/-- C1 witness: on the full query (truthy methodName and loadOptions), every
resolution event of the options endpoint is a resolve-by-method-name call;
on the mandatory-only query (neither selector), no resolution event occurs
and the result is the empty list. -/
theorem options_mode_exclusive_witness :
    (strVal fullQuery.methodName ≠ ""
      ∧ (((optionsEndpoint stubEnv "user1" fullQuery).2.filter
          CallEvent.isResolution).all CallEvent.isViaMethodName) = true)
    ∧ (strVal mandatoryOnlyQuery.methodName = ""
      ∧ strVal mandatoryOnlyQuery.loadOptions = ""
      ∧ (optionsEndpoint stubEnv "user1" mandatoryOnlyQuery).1 = .ok []) :=
  ⟨⟨by decide, (options_mode_exclusive stubEnv "user1" fullQuery).1 (by decide)⟩,
   ⟨rfl, rfl,
    ((options_mode_exclusive stubEnv "user1" mandatoryOnlyQuery).2.2 rfl rfl).2
      ⟨Json.str "ntv-text", Json.str "cnp-text", none⟩ ⟨7⟩ rfl rfl⟩⟩

/-- C2: on the resource-locator-results and resource-mapper-fields
endpoints, a falsy methodName fails the request with the BadRequestError
naming methodName before any other validation runs (for every query, in
particular one also missing nodeTypeAndVersion), and no collaborator is
invoked. -/
theorem methodName_checked_first (env : Env) (userId : String) (q : Query)
    (h : strVal q.methodName = "") :
    resourceLocatorResultsEndpoint env userId q =
      (.error (.badRequest "Parameter methodName is required."), [])
    ∧ resourceMapperFieldsEndpoint env userId q =
      (.error (.badRequest "Parameter methodName is required."), [])
    ∧ mentions "Parameter methodName is required." "methodName" = true := by
  refine ⟨?_, ?_, by decide⟩ <;>
    simp [resourceLocatorResultsEndpoint, resourceMapperFieldsEndpoint,
      assertMethodName, h]

/-- C2 witness: the empty query (missing methodName and nodeTypeAndVersion
alike) fails both endpoints with the methodName error and an empty call
trace. -/
theorem methodName_checked_first_witness :
    strVal emptyQuery.methodName = ""
    ∧ resourceLocatorResultsEndpoint stubEnv "user1" emptyQuery =
        (.error (.badRequest "Parameter methodName is required."), []) :=
  ⟨rfl, (methodName_checked_first stubEnv "user1" emptyQuery rfl).1⟩

/-- C3 counterexample: on the resource-locator-results endpoint a request
missing every field (in particular nodeTypeAndVersion) fails with the
methodName message, which does not name nodeTypeAndVersion; so the claim
does not hold of every call to all three endpoints. -/
theorem required_fields_cex :
    emptyQuery.nodeTypeAndVersion = none
    ∧ resourceLocatorResultsEndpoint stubEnv "user1" emptyQuery =
        (.error (.badRequest "Parameter methodName is required."), [])
    ∧ mentions "Parameter methodName is required." "nodeTypeAndVersion" = false :=
  ⟨rfl, rfl, by decide⟩

/-- C3 amended: on the options endpoint always, and on the
resource-locator-results and resource-mapper-fields endpoints whenever
methodName is truthy, a falsy nodeTypeAndVersion fails the request with the
client error naming nodeTypeAndVersion, and otherwise a falsy
currentNodeParameters fails it with the client error naming
currentNodeParameters; in both cases the call trace is empty, so no
collaborator is invoked. -/
theorem required_fields_checked (env : Env) (userId : String) (q : Query) :
    (strVal q.nodeTypeAndVersion = "" →
      optionsEndpoint env userId q =
        (.error (.badRequest "Parameter nodeTypeAndVersion is required."), [])
      ∧ (strVal q.methodName ≠ "" →
          resourceLocatorResultsEndpoint env userId q =
            (.error (.badRequest "Parameter nodeTypeAndVersion is required."), [])
          ∧ resourceMapperFieldsEndpoint env userId q =
            (.error (.badRequest "Parameter nodeTypeAndVersion is required."), [])))
    ∧ (strVal q.nodeTypeAndVersion ≠ "" → strVal q.currentNodeParameters = "" →
      optionsEndpoint env userId q =
        (.error (.badRequest "Parameter currentNodeParameters is required."), [])
      ∧ (strVal q.methodName ≠ "" →
          resourceLocatorResultsEndpoint env userId q =
            (.error (.badRequest "Parameter currentNodeParameters is required."), [])
          ∧ resourceMapperFieldsEndpoint env userId q =
            (.error (.badRequest "Parameter currentNodeParameters is required."), [])))
    ∧ mentions "Parameter nodeTypeAndVersion is required." "nodeTypeAndVersion" = true
    ∧ mentions "Parameter currentNodeParameters is required." "currentNodeParameters" = true := by
  refine ⟨fun h => ?_, fun hn h => ?_, by decide, by decide⟩
  · have hp := parseQueryParams_noNtv env q h
    exact ⟨optionsEndpoint_error env userId q _ hp,
      fun hm => ⟨locatorEndpoint_error env userId q hm _ hp,
        mapperEndpoint_error env userId q hm _ hp⟩⟩
  · have hp := parseQueryParams_noCnp env q hn h
    exact ⟨optionsEndpoint_error env userId q _ hp,
      fun hm => ⟨locatorEndpoint_error env userId q hm _ hp,
        mapperEndpoint_error env userId q hm _ hp⟩⟩

/-- C3 witness: with only methodName supplied, the options and
resource-locator-results endpoints fail with the nodeTypeAndVersion error
and an empty trace. -/
theorem required_fields_checked_witness :
    strVal ({ methodName := some "getUrls" } : Query).nodeTypeAndVersion = ""
    ∧ optionsEndpoint stubEnv "user1" { methodName := some "getUrls" } =
        (.error (.badRequest "Parameter nodeTypeAndVersion is required."), [])
    ∧ resourceLocatorResultsEndpoint stubEnv "user1" { methodName := some "getUrls" } =
        (.error (.badRequest "Parameter nodeTypeAndVersion is required."), []) :=
  ⟨rfl,
   ((required_fields_checked stubEnv "user1" { methodName := some "getUrls" }).1 rfl).1,
   (((required_fields_checked stubEnv "user1" { methodName := some "getUrls" }).1 rfl).2
     (by decide)).1⟩

/-- C4: when the mandatory fields are truthy and one of the structured
fields (nodeTypeAndVersion, currentNodeParameters, or truthy credentials)
is malformed JSON while the fields decoded before it are well-formed, the
request on each endpoint fails with the parse error: a 400-class client
fault distinct from every missing-field BadRequestError, with an empty
call trace, so no resolution collaborator is invoked. -/
theorem malformed_json_client_fault (env : Env) (userId : String) (q : Query)
    (hn : strVal q.nodeTypeAndVersion ≠ "")
    (hc : strVal q.currentNodeParameters ≠ "")
    (hbad :
      (∃ e, env.jsonParse (strVal q.nodeTypeAndVersion) = .error e)
      ∨ ((∃ v, env.jsonParse (strVal q.nodeTypeAndVersion) = .ok v)
          ∧ ∃ e, env.jsonParse (strVal q.currentNodeParameters) = .error e)
      ∨ ((∃ v, env.jsonParse (strVal q.nodeTypeAndVersion) = .ok v)
          ∧ (∃ w, env.jsonParse (strVal q.currentNodeParameters) = .ok w)
          ∧ strVal q.credentials ≠ ""
          ∧ ∃ e, env.jsonParse (strVal q.credentials) = .error e)) :
    ∃ e, parseQueryParams env q = .error (.parseError e)
      ∧ optionsEndpoint env userId q = (.error (.parseError e), [])
      ∧ (strVal q.methodName ≠ "" →
          resourceLocatorResultsEndpoint env userId q = (.error (.parseError e), [])
          ∧ resourceMapperFieldsEndpoint env userId q = (.error (.parseError e), []))
      ∧ (ApiError.parseError e).httpStatusClass = 400
      ∧ ∀ m, ApiError.parseError e ≠ ApiError.badRequest m := by
  have hp : ∃ e, parseQueryParams env q = .error (.parseError e) := by
    rcases hbad with ⟨e, he⟩ | ⟨⟨v, hv⟩, e, he⟩ | ⟨⟨v, hv⟩, ⟨w, hw⟩, hcr, e, he⟩
    · exact ⟨e, parseQueryParams_ntvParseError env q hn hc e he⟩
    · exact ⟨e, parseQueryParams_cnpParseError env q hn hc v e hv he⟩
    · exact ⟨e, parseQueryParams_credParseError env q hn hc v w e hv hw hcr he⟩
  obtain ⟨e, he⟩ := hp
  refine ⟨e, he, optionsEndpoint_error env userId q _ he,
    fun hm => ⟨locatorEndpoint_error env userId q hm _ he,
      mapperEndpoint_error env userId q hm _ he⟩,
    rfl, fun m => by simp⟩

/-- C4 witness: the full query with nodeTypeAndVersion set to the one text
the stub parser rejects fails all three endpoints with the parse error,
classified 400 and distinct from every BadRequestError. -/
theorem malformed_json_client_fault_witness :
    strVal badNtvQuery.nodeTypeAndVersion ≠ ""
    ∧ strVal badNtvQuery.currentNodeParameters ≠ ""
    ∧ stubEnv.jsonParse (strVal badNtvQuery.nodeTypeAndVersion) = .error "malformed"
    ∧ ∃ e, parseQueryParams stubEnv badNtvQuery = .error (.parseError e)
        ∧ optionsEndpoint stubEnv "user1" badNtvQuery = (.error (.parseError e), [])
        ∧ (strVal badNtvQuery.methodName ≠ "" →
            resourceLocatorResultsEndpoint stubEnv "user1" badNtvQuery =
              (.error (.parseError e), [])
            ∧ resourceMapperFieldsEndpoint stubEnv "user1" badNtvQuery =
              (.error (.parseError e), []))
        ∧ (ApiError.parseError e).httpStatusClass = 400
        ∧ ∀ m, ApiError.parseError e ≠ ApiError.badRequest m :=
  ⟨by decide, by decide, rfl,
   malformed_json_client_fault stubEnv "user1" badNtvQuery (by decide) (by decide)
     (Or.inl ⟨"malformed", rfl⟩)⟩

/-- C5: the validator depends on the JSON parser only at the
nodeTypeAndVersion, currentNodeParameters and credentials texts; and on an
options call with a truthy methodName the whole endpoint never decodes the
loadOptions text, so its outcome is unchanged under any reinterpretation of
the parser at that text (a malformed loadOptions cannot cause a failure). -/
theorem loadOptions_decoded_lazily (env : Env)
    (g : String → Except String Json) (userId : String) (q : Query) :
    (g (strVal q.nodeTypeAndVersion) = env.jsonParse (strVal q.nodeTypeAndVersion) →
     g (strVal q.currentNodeParameters) = env.jsonParse (strVal q.currentNodeParameters) →
     g (strVal q.credentials) = env.jsonParse (strVal q.credentials) →
     parseQueryParams { env with jsonParse := g } q = parseQueryParams env q)
    ∧ (strVal q.methodName ≠ "" →
       (∀ s, s ≠ strVal q.loadOptions → g s = env.jsonParse s) →
       strVal q.loadOptions ≠ strVal q.nodeTypeAndVersion →
       strVal q.loadOptions ≠ strVal q.currentNodeParameters →
       strVal q.loadOptions ≠ strVal q.credentials →
       optionsEndpoint { env with jsonParse := g } userId q =
         optionsEndpoint env userId q) := by
  have hval : ∀ h1 : g (strVal q.nodeTypeAndVersion) =
        env.jsonParse (strVal q.nodeTypeAndVersion),
      ∀ h2 : g (strVal q.currentNodeParameters) =
        env.jsonParse (strVal q.currentNodeParameters),
      ∀ h3 : g (strVal q.credentials) = env.jsonParse (strVal q.credentials),
      parseQueryParams { env with jsonParse := g } q = parseQueryParams env q := by
    intro h1 h2 h3
    simp only [parseQueryParams]
    rw [h1, h2, h3]
  refine ⟨hval, fun hm hag d1 d2 d3 => ?_⟩
  have hpq : parseQueryParams { env with jsonParse := g } q = parseQueryParams env q :=
    hval (hag _ (fun h => d1 h.symm)) (hag _ (fun h => d2 h.symm))
      (hag _ (fun h => d3 h.symm))
  cases hp : parseQueryParams env q with
  | error e =>
    rw [optionsEndpoint_error env userId q e hp,
      optionsEndpoint_error { env with jsonParse := g } userId q e (hpq.trans hp)]
  | ok p =>
    rw [optionsEndpoint_ok env userId q p hp,
      optionsEndpoint_ok { env with jsonParse := g } userId q p (hpq.trans hp)]
    cases hgb : env.getBase userId p.currentNodeParameters with
    | error e =>
      rw [getOptions_ctxError env userId q p e hgb,
        getOptions_ctxError { env with jsonParse := g } userId q p e hgb]
    | ok ctx =>
      rw [getOptions_viaMethod env userId q p ctx hgb hm,
        getOptions_viaMethod { env with jsonParse := g } userId q p ctx hgb hm]

/-- C5 witness: on the full query (truthy methodName), replacing the stub
parser by one that rejects exactly the loadOptions text leaves the options
endpoint outcome unchanged. -/
theorem loadOptions_decoded_lazily_witness :
    strVal fullQuery.methodName ≠ ""
    ∧ probeParse (strVal fullQuery.loadOptions) = .error "boom"
    ∧ optionsEndpoint lazyProbeEnv "user1" fullQuery =
        optionsEndpoint stubEnv "user1" fullQuery :=
  ⟨by decide, rfl,
   (loadOptions_decoded_lazily stubEnv probeParse "user1" fullQuery).2 (by decide)
     (fun s hs => by
        have hs2 : s ≠ "lo-text" := hs
        rw [probeParse, if_neg hs2])
     (by decide) (by decide) (by decide)⟩

/-- C6: on each endpoint the execution-context builder runs exactly once,
only after validation succeeds (a validation failure leaves the trace
empty), before any resolution call (the trace is the buildContext event
followed only by resolution events), and a context-builder failure
propagates as the contextError and terminates the request with no
resolution call made. -/
theorem context_built_once (env : Env) (userId : String) (q : Query) :
    (∀ e, parseQueryParams env q = .error e →
      optionsEndpoint env userId q = (.error e, []))
    ∧ (∀ p, parseQueryParams env q = .ok p →
        (∀ e, env.getBase userId p.currentNodeParameters = .error e →
          optionsEndpoint env userId q =
            (.error (.contextError e),
             [.buildContext userId p.currentNodeParameters]))
        ∧ ∃ rest, (optionsEndpoint env userId q).2 =
            .buildContext userId p.currentNodeParameters :: rest
            ∧ rest.all CallEvent.isResolution = true)
    ∧ (strVal q.methodName ≠ "" →
        (∀ e, parseQueryParams env q = .error e →
          resourceLocatorResultsEndpoint env userId q = (.error e, []))
        ∧ ∀ p, parseQueryParams env q = .ok p →
            (∀ e, env.getBase userId p.currentNodeParameters = .error e →
              resourceLocatorResultsEndpoint env userId q =
                (.error (.contextError e),
                 [.buildContext userId p.currentNodeParameters]))
            ∧ ∃ rest, (resourceLocatorResultsEndpoint env userId q).2 =
                .buildContext userId p.currentNodeParameters :: rest
                ∧ rest.all CallEvent.isResolution = true)
    ∧ (strVal q.methodName ≠ "" →
        (∀ e, parseQueryParams env q = .error e →
          resourceMapperFieldsEndpoint env userId q = (.error e, []))
        ∧ ∀ p, parseQueryParams env q = .ok p →
            (∀ e, env.getBase userId p.currentNodeParameters = .error e →
              resourceMapperFieldsEndpoint env userId q =
                (.error (.contextError e),
                 [.buildContext userId p.currentNodeParameters]))
            ∧ ∃ rest, (resourceMapperFieldsEndpoint env userId q).2 =
                .buildContext userId p.currentNodeParameters :: rest
                ∧ rest.all CallEvent.isResolution = true) := by
  refine ⟨fun e he => optionsEndpoint_error env userId q e he,
    fun p hp => ⟨fun e he => ?_, ?_⟩,
    fun hm => ⟨fun e he => locatorEndpoint_error env userId q hm e he,
      fun p hp => ⟨fun e he => ?_, ?_⟩⟩,
    fun hm => ⟨fun e he => mapperEndpoint_error env userId q hm e he,
      fun p hp => ⟨fun e he => ?_, ?_⟩⟩⟩
  · rw [optionsEndpoint_ok env userId q p hp,
      getOptions_ctxError env userId q p e he]
  · rw [optionsEndpoint_ok env userId q p hp]
    cases hgb : env.getBase userId p.currentNodeParameters with
    | error e =>
      rw [getOptions_ctxError env userId q p e hgb]
      exact ⟨[], rfl, rfl⟩
    | ok ctx =>
      by_cases hm : strVal q.methodName = ""
      · by_cases hl : strVal q.loadOptions = ""
        · rw [getOptions_neither env userId q p ctx hgb hm hl]
          exact ⟨[], rfl, rfl⟩
        · cases hlp : env.jsonParse (strVal q.loadOptions) with
          | error e =>
            rw [getOptions_loadParseError env userId q p ctx e hgb hm hl hlp]
            exact ⟨[], rfl, rfl⟩
          | ok d =>
            rw [getOptions_viaLoad env userId q p ctx d hgb hm hl hlp]
            exact ⟨[.optionsViaLoadOptions d ctx p.nodeTypeAndVersion
              p.currentNodeParameters p.credentials], rfl, rfl⟩
      · rw [getOptions_viaMethod env userId q p ctx hgb hm]
        exact ⟨[.optionsViaMethodName (strVal q.methodName) q.path ctx
          p.nodeTypeAndVersion p.currentNodeParameters p.credentials], rfl, rfl⟩
  · rw [locatorEndpoint_ok env userId q p hm hp,
      getResourceLocatorResults_ctxError env userId q p e he]
  · rw [locatorEndpoint_ok env userId q p hm hp]
    cases hgb : env.getBase userId p.currentNodeParameters with
    | error e =>
      rw [getResourceLocatorResults_ctxError env userId q p e hgb]
      exact ⟨[], rfl, rfl⟩
    | ok ctx =>
      rw [getResourceLocatorResults_call env userId q p ctx hgb]
      exact ⟨[.locatorResults (strVal q.methodName) q.path ctx
        p.nodeTypeAndVersion p.currentNodeParameters p.credentials
        q.filter q.paginationToken], rfl, rfl⟩
  · rw [mapperEndpoint_ok env userId q p hm hp,
      getResourceMappingFields_ctxError env userId q p e he]
  · rw [mapperEndpoint_ok env userId q p hm hp]
    cases hgb : env.getBase userId p.currentNodeParameters with
    | error e =>
      rw [getResourceMappingFields_ctxError env userId q p e hgb]
      exact ⟨[], rfl, rfl⟩
    | ok ctx =>
      rw [getResourceMappingFields_call env userId q p ctx hgb]
      exact ⟨[.mapperFields (strVal q.methodName) q.path ctx
        p.nodeTypeAndVersion p.currentNodeParameters p.credentials], rfl, rfl⟩

/-- C6 witness: on the full query with the failing context builder, the
options endpoint terminates with the contextError after exactly the one
buildContext call and no resolution call. -/
theorem context_built_once_witness :
    parseQueryParams failCtxEnv fullQuery = .ok fullParams
    ∧ failCtxEnv.getBase "user1" fullParams.currentNodeParameters = .error "no context"
    ∧ optionsEndpoint failCtxEnv "user1" fullQuery =
        (.error (.contextError "no context"),
         [.buildContext "user1" fullParams.currentNodeParameters]) :=
  ⟨rfl, rfl,
   ((context_built_once failCtxEnv "user1" fullQuery).2.1 fullParams rfl).1
     "no context" rfl⟩

/-- C7: once validation and context building succeed, each endpoint returns
exactly the pair of the outcome of its one resolution call, unchanged
(including the undefined sentinel and any error the collaborator raised),
and its trace is the buildContext call followed by that one resolution
call with the decoded arguments. -/
theorem resolution_result_unchanged (env : Env) (userId : String)
    (q : Query) (p : ReqParams) (ctx : AdditionalData)
    (hp : parseQueryParams env q = .ok p)
    (hb : env.getBase userId p.currentNodeParameters = .ok ctx) :
    (strVal q.methodName ≠ "" →
      optionsEndpoint env userId q =
        (env.service.getOptionsViaMethodName (strVal q.methodName) q.path ctx
           p.nodeTypeAndVersion p.currentNodeParameters p.credentials,
         [.buildContext userId p.currentNodeParameters,
          .optionsViaMethodName (strVal q.methodName) q.path ctx
            p.nodeTypeAndVersion p.currentNodeParameters p.credentials]))
    ∧ (strVal q.methodName = "" → strVal q.loadOptions ≠ "" →
       ∀ d, env.jsonParse (strVal q.loadOptions) = .ok d →
        optionsEndpoint env userId q =
          (env.service.getOptionsViaLoadOptions d ctx p.nodeTypeAndVersion
             p.currentNodeParameters p.credentials,
           [.buildContext userId p.currentNodeParameters,
            .optionsViaLoadOptions d ctx p.nodeTypeAndVersion
              p.currentNodeParameters p.credentials]))
    ∧ (strVal q.methodName ≠ "" →
        resourceLocatorResultsEndpoint env userId q =
          (env.service.getResourceLocatorResults (strVal q.methodName) q.path
             ctx p.nodeTypeAndVersion p.currentNodeParameters p.credentials
             q.filter q.paginationToken,
           [.buildContext userId p.currentNodeParameters,
            .locatorResults (strVal q.methodName) q.path ctx
              p.nodeTypeAndVersion p.currentNodeParameters p.credentials
              q.filter q.paginationToken]))
    ∧ (strVal q.methodName ≠ "" →
        resourceMapperFieldsEndpoint env userId q =
          (env.service.getResourceMappingFields (strVal q.methodName) q.path
             ctx p.nodeTypeAndVersion p.currentNodeParameters p.credentials,
           [.buildContext userId p.currentNodeParameters,
            .mapperFields (strVal q.methodName) q.path ctx
              p.nodeTypeAndVersion p.currentNodeParameters p.credentials])) := by
  refine ⟨fun hm => ?_, fun hm hl d hd => ?_, fun hm => ?_, fun hm => ?_⟩
  · rw [optionsEndpoint_ok env userId q p hp,
      getOptions_viaMethod env userId q p ctx hb hm]
  · rw [optionsEndpoint_ok env userId q p hp,
      getOptions_viaLoad env userId q p ctx d hb hm hl hd]
  · rw [locatorEndpoint_ok env userId q p hm hp,
      getResourceLocatorResults_call env userId q p ctx hb]
  · rw [mapperEndpoint_ok env userId q p hm hp,
      getResourceMappingFields_call env userId q p ctx hb]

/-- C7 witness: on the full query the options endpoint returns exactly the
stub resolution result, and with the failing resolution service the
resource-locator-results endpoint propagates the 502 upstream error
unchanged. -/
theorem resolution_result_unchanged_witness :
    parseQueryParams stubEnv fullQuery = .ok fullParams
    ∧ stubEnv.getBase "user1" fullParams.currentNodeParameters = .ok ⟨7⟩
    ∧ strVal fullQuery.methodName ≠ ""
    ∧ optionsEndpoint stubEnv "user1" fullQuery =
        (.ok [Json.str "getUrls"],
         [.buildContext "user1" fullParams.currentNodeParameters,
          .optionsViaMethodName "getUrls" (some "parameters.url") ⟨7⟩
            fullParams.nodeTypeAndVersion fullParams.currentNodeParameters
            fullParams.credentials])
    ∧ resourceLocatorResultsEndpoint failServiceEnv "user1" fullQuery =
        (.error (.serviceError 502 "upstream unreachable"),
         [.buildContext "user1" fullParams.currentNodeParameters,
          .locatorResults "getUrls" (some "parameters.url") ⟨7⟩
            fullParams.nodeTypeAndVersion fullParams.currentNodeParameters
            fullParams.credentials (some "fil") (some "tok")]) :=
  ⟨rfl, rfl, by decide,
   (resolution_result_unchanged stubEnv "user1" fullQuery fullParams ⟨7⟩
      rfl rfl).1 (by decide),
   (resolution_result_unchanged failServiceEnv "user1" fullQuery fullParams ⟨7⟩
      rfl rfl).2.2.1 (by decide)⟩

/-- Helper: in a trace of the buildContext event followed by one resolution
event whose credentials argument is `cr0`, every event that carries a
credentials argument carries `cr0`. -/
theorem credArg_pair (userId : String) (cnp : Json) (cr0 : Option Json)
    (ev : CallEvent) (hev : ev.credArg = some cr0) :
    ∀ e ∈ [CallEvent.buildContext userId cnp, ev],
      ∀ cr, e.credArg = some cr → cr = cr0 := by
  intro e he cr hcr
  simp only [List.mem_cons, List.not_mem_nil, or_false] at he
  rcases he with rfl | rfl
  · exact Option.noConfusion hcr
  · rw [hev] at hcr
    injection hcr with h
    exact h.symm

/-- Helper: in a trace of only the buildContext event, no event carries a
credentials argument. -/
theorem credArg_single (userId : String) (cnp : Json) (cr0 : Option Json) :
    ∀ e ∈ [CallEvent.buildContext userId cnp],
      ∀ cr, e.credArg = some cr → cr = cr0 := by
  intro e he cr hcr
  simp only [List.mem_singleton] at he
  subst he
  exact Option.noConfusion hcr

/-- Helper: every resolution event the options handler records carries the
decoded credentials value unchanged. -/
theorem getOptions_credArg (env : Env) (userId : String) (q : Query)
    (p : ReqParams) :
    ∀ e ∈ (getOptions env userId q p).2,
      ∀ cr, e.credArg = some cr → cr = p.credentials := by
  cases hgb : env.getBase userId p.currentNodeParameters with
  | error e0 =>
    rw [getOptions_ctxError env userId q p e0 hgb]
    exact credArg_single userId p.currentNodeParameters p.credentials
  | ok ctx =>
    by_cases hm : strVal q.methodName = ""
    · by_cases hl : strVal q.loadOptions = ""
      · rw [getOptions_neither env userId q p ctx hgb hm hl]
        exact credArg_single userId p.currentNodeParameters p.credentials
      · cases hlp : env.jsonParse (strVal q.loadOptions) with
        | error e0 =>
          rw [getOptions_loadParseError env userId q p ctx e0 hgb hm hl hlp]
          exact credArg_single userId p.currentNodeParameters p.credentials
        | ok d =>
          rw [getOptions_viaLoad env userId q p ctx d hgb hm hl hlp]
          exact credArg_pair userId p.currentNodeParameters p.credentials _ rfl
    · rw [getOptions_viaMethod env userId q p ctx hgb hm]
      exact credArg_pair userId p.currentNodeParameters p.credentials _ rfl

/-- Helper: every resolution event the resource-locator-results handler
records carries the decoded credentials value unchanged. -/
theorem getResourceLocatorResults_credArg (env : Env) (userId : String)
    (q : Query) (p : ReqParams) :
    ∀ e ∈ (getResourceLocatorResults env userId q p).2,
      ∀ cr, e.credArg = some cr → cr = p.credentials := by
  cases hgb : env.getBase userId p.currentNodeParameters with
  | error e0 =>
    rw [getResourceLocatorResults_ctxError env userId q p e0 hgb]
    exact credArg_single userId p.currentNodeParameters p.credentials
  | ok ctx =>
    rw [getResourceLocatorResults_call env userId q p ctx hgb]
    exact credArg_pair userId p.currentNodeParameters p.credentials _ rfl

/-- Helper: every resolution event the resource-mapper-fields handler
records carries the decoded credentials value unchanged. -/
theorem getResourceMappingFields_credArg (env : Env) (userId : String)
    (q : Query) (p : ReqParams) :
    ∀ e ∈ (getResourceMappingFields env userId q p).2,
      ∀ cr, e.credArg = some cr → cr = p.credentials := by
  cases hgb : env.getBase userId p.currentNodeParameters with
  | error e0 =>
    rw [getResourceMappingFields_ctxError env userId q p e0 hgb]
    exact credArg_single userId p.currentNodeParameters p.credentials
  | ok ctx =>
    rw [getResourceMappingFields_call env userId q p ctx hgb]
    exact credArg_pair userId p.currentNodeParameters p.credentials _ rfl

/-- C8: on every validated request the decoded credentials are an explicit
`none` when the query field is falsy and exactly the decoded JSON value
when it is truthy, and on all three endpoints every resolution event in the
trace carries precisely that decoded credentials value as its credentials
argument. -/
theorem credentials_passed_opaquely (env : Env) (userId : String)
    (q : Query) (p : ReqParams) (hp : parseQueryParams env q = .ok p) :
    (strVal q.credentials = "" → p.credentials = none)
    ∧ (∀ c, strVal q.credentials ≠ "" →
        env.jsonParse (strVal q.credentials) = .ok c → p.credentials = some c)
    ∧ (∀ e ∈ (optionsEndpoint env userId q).2,
        ∀ cr, e.credArg = some cr → cr = p.credentials)
    ∧ (∀ e ∈ (resourceLocatorResultsEndpoint env userId q).2,
        ∀ cr, e.credArg = some cr → cr = p.credentials)
    ∧ (∀ e ∈ (resourceMapperFieldsEndpoint env userId q).2,
        ∀ cr, e.credArg = some cr → cr = p.credentials) := by
  refine ⟨?_, ?_, ?_, ?_, ?_⟩
  · intro hcr
    by_cases hn : strVal q.nodeTypeAndVersion = ""
    · rw [parseQueryParams_noNtv env q hn] at hp
      exact Except.noConfusion hp
    by_cases hc : strVal q.currentNodeParameters = ""
    · rw [parseQueryParams_noCnp env q hn hc] at hp
      exact Except.noConfusion hp
    cases hv : env.jsonParse (strVal q.nodeTypeAndVersion) with
    | error e =>
      rw [parseQueryParams_ntvParseError env q hn hc e hv] at hp
      exact Except.noConfusion hp
    | ok v =>
      cases hw : env.jsonParse (strVal q.currentNodeParameters) with
      | error e =>
        rw [parseQueryParams_cnpParseError env q hn hc v e hv hw] at hp
        exact Except.noConfusion hp
      | ok w =>
        rw [parseQueryParams_ok_noCred env q hn hc v w hv hw hcr] at hp
        injection hp with h
        subst h
        rfl
  · intro c hcr hjc
    by_cases hn : strVal q.nodeTypeAndVersion = ""
    · rw [parseQueryParams_noNtv env q hn] at hp
      exact Except.noConfusion hp
    by_cases hc : strVal q.currentNodeParameters = ""
    · rw [parseQueryParams_noCnp env q hn hc] at hp
      exact Except.noConfusion hp
    cases hv : env.jsonParse (strVal q.nodeTypeAndVersion) with
    | error e =>
      rw [parseQueryParams_ntvParseError env q hn hc e hv] at hp
      exact Except.noConfusion hp
    | ok v =>
      cases hw : env.jsonParse (strVal q.currentNodeParameters) with
      | error e =>
        rw [parseQueryParams_cnpParseError env q hn hc v e hv hw] at hp
        exact Except.noConfusion hp
      | ok w =>
        rw [parseQueryParams_ok_cred env q hn hc v w c hv hw hcr hjc] at hp
        injection hp with h
        subst h
        rfl
  · rw [optionsEndpoint_ok env userId q p hp]
    exact getOptions_credArg env userId q p
  · by_cases hm : strVal q.methodName = ""
    · rw [locatorEndpoint_noMethod env userId q hm]
      intro e he
      exact absurd he (List.not_mem_nil e)
    · rw [locatorEndpoint_ok env userId q p hm hp]
      exact getResourceLocatorResults_credArg env userId q p
  · by_cases hm : strVal q.methodName = ""
    · rw [mapperEndpoint_noMethod env userId q hm]
      intro e he
      exact absurd he (List.not_mem_nil e)
    · rw [mapperEndpoint_ok env userId q p hm hp]
      exact getResourceMappingFields_credArg env userId q p

/-- C8 witness: on the full query the decoded credentials value is the
parsed credentials text, and every resolution event of the
resource-locator-results endpoint carries exactly it. -/
theorem credentials_passed_opaquely_witness :
    parseQueryParams stubEnv fullQuery = .ok fullParams
    ∧ ∀ e ∈ (resourceLocatorResultsEndpoint stubEnv "user1" fullQuery).2,
        ∀ cr, e.credArg = some cr → cr = fullParams.credentials :=
  ⟨rfl,
   (credentials_passed_opaquely stubEnv "user1" fullQuery fullParams rfl).2.2.2.1⟩

/-- C9 counterexample: supplying methodName as the empty string is treated
exactly like omitting it — the options endpoint (which then takes the
loadOptions path) and the resource-locator-results endpoint (which then
rejects the request) behave identically on the two queries, refuting the
claim that an empty-string value is treated differently from omission for
every optional field. -/
theorem optional_empty_equals_absent_cex :
    emptyMethodQuery.methodName = some ""
    ∧ noMethodQuery.methodName = none
    ∧ optionsEndpoint stubEnv "user1" emptyMethodQuery =
        optionsEndpoint stubEnv "user1" noMethodQuery
    ∧ resourceLocatorResultsEndpoint stubEnv "user1" emptyMethodQuery =
        resourceLocatorResultsEndpoint stubEnv "user1" noMethodQuery :=
  ⟨rfl, rfl, rfl, rfl⟩

/-- C9 amended: absence is represented as an explicit missing value at the
query level, and filter and paginationToken are forwarded verbatim to the
resolution call (so for them an empty string stays distinct from
omission); but for methodName, loadOptions and credentials the handlers
test truthiness, so an empty-string value is treated identically to
omitting the field. -/
theorem optional_absent_reprs_amended (env : Env) (userId : String)
    (q : Query) :
    (optionsEndpoint env userId { q with methodName := some "" } =
       optionsEndpoint env userId { q with methodName := none })
    ∧ (optionsEndpoint env userId { q with loadOptions := some "" } =
       optionsEndpoint env userId { q with loadOptions := none })
    ∧ (parseQueryParams env { q with credentials := some "" } =
       parseQueryParams env { q with credentials := none })
    ∧ (∀ p ctx, parseQueryParams env q = .ok p →
        env.getBase userId p.currentNodeParameters = .ok ctx →
        strVal q.methodName ≠ "" →
        (resourceLocatorResultsEndpoint env userId q).2.all
          (CallEvent.filterPaginationOk q) = true) := by
  refine ⟨rfl, rfl, rfl, fun p ctx hp hctx hm => ?_⟩
  rw [locatorEndpoint_ok env userId q p hm hp,
    getResourceLocatorResults_call env userId q p ctx hctx]
  simp [CallEvent.filterPaginationOk]

/-- C9 amended witness: on the full query every resource-locator resolution
event carries the filter and paginationToken values verbatim. -/
theorem optional_absent_reprs_amended_witness :
    strVal fullQuery.methodName ≠ ""
    ∧ (resourceLocatorResultsEndpoint stubEnv "user1" fullQuery).2.all
        (CallEvent.filterPaginationOk fullQuery) = true :=
  ⟨by decide,
   (optional_absent_reprs_amended stubEnv "user1" fullQuery).2.2.2
     fullParams ⟨7⟩ rfl rfl (by decide)⟩

/-- C10: an options request with neither selector supplied still invokes
the execution-context builder exactly once (the trace is exactly the one
buildContext call), a context-builder failure fails the request with the
contextError, and only on context-builder success is the empty list
returned. -/
theorem options_context_even_without_mode (env : Env) (userId : String)
    (q : Query) (p : ReqParams)
    (hm : strVal q.methodName = "") (hl : strVal q.loadOptions = "")
    (hp : parseQueryParams env q = .ok p) :
    (optionsEndpoint env userId q).2 =
      [.buildContext userId p.currentNodeParameters]
    ∧ (∀ e, env.getBase userId p.currentNodeParameters = .error e →
        (optionsEndpoint env userId q).1 = .error (.contextError e))
    ∧ (∀ ctx, env.getBase userId p.currentNodeParameters = .ok ctx →
        (optionsEndpoint env userId q).1 = .ok []) := by
  rw [optionsEndpoint_ok env userId q p hp]
  refine ⟨?_, fun e he => ?_, fun ctx hctx => ?_⟩
  · cases hgb : env.getBase userId p.currentNodeParameters with
    | error e => rw [getOptions_ctxError env userId q p e hgb]
    | ok ctx => rw [getOptions_neither env userId q p ctx hgb hm hl]
  · rw [getOptions_ctxError env userId q p e he]
  · rw [getOptions_neither env userId q p ctx hctx hm hl]

/-- C10 witness: on the mandatory-only query with the failing context
builder, the options endpoint makes exactly the one buildContext call and
fails with the contextError even though no resolution collaborator would
ever be called. -/
theorem options_context_even_without_mode_witness :
    strVal mandatoryOnlyQuery.methodName = ""
    ∧ strVal mandatoryOnlyQuery.loadOptions = ""
    ∧ parseQueryParams failCtxEnv mandatoryOnlyQuery =
        .ok ⟨.str "ntv-text", .str "cnp-text", none⟩
    ∧ (optionsEndpoint failCtxEnv "user1" mandatoryOnlyQuery).2 =
        [.buildContext "user1" (.str "cnp-text")]
    ∧ (optionsEndpoint failCtxEnv "user1" mandatoryOnlyQuery).1 =
        .error (.contextError "no context") :=
  ⟨rfl, rfl, rfl,
   (options_context_even_without_mode failCtxEnv "user1" mandatoryOnlyQuery
      ⟨.str "ntv-text", .str "cnp-text", none⟩ rfl rfl rfl).1,
   (options_context_even_without_mode failCtxEnv "user1" mandatoryOnlyQuery
      ⟨.str "ntv-text", .str "cnp-text", none⟩ rfl rfl rfl).2.1
     "no context" rfl⟩

end DynamicNodeParameters
